import Mathlib

/-!
Shallow embedding of `src/infs3201-assignment2/app.js`, a single-user,
menu-driven photo catalog utility operating on two JSON documents
(`photos.json`, `albums.json`).

JavaScript values reachable from parsed JSON documents are modelled by
`JsVal`.  The interactive session is modelled by a state monad `M` whose
state `S` carries the file system (parse result per file name, write
success per file name), the pending prompt inputs, and the trace of
observable events (file reads, file writes, prompt displays, printed
lines).  A thrown JavaScript error is modelled by the `Except String`
component, the string standing for the error message.
-/

/-- A JavaScript value as it can appear in this program: JSON data plus
the `undefined` produced by missing-property access.  Object identity is
not modelled; the program never compares two composite values that could
be the same reference (every `===` in the source has a primitive on at
least one side of any true outcome). -/
inductive JsVal : Type where
  | vnull : JsVal
  | vundef : JsVal
  | vbool : Bool → JsVal
  | vnum : Int → JsVal
  | vstr : String → JsVal
  | varr : List JsVal → JsVal
  | vobj : List (String × JsVal) → JsVal

/-- JavaScript truthiness (`!x` in the source is `truthy x = false`).
`NaN` never arises as a stored value here, so numbers are falsy exactly
at 0. -/
def truthy : JsVal → Bool
  | JsVal.vnull => false
  | JsVal.vundef => false
  | JsVal.vbool b => b
  | JsVal.vnum n => n != 0
  | JsVal.vstr s => s != ""
  | JsVal.varr _ => true
  | JsVal.vobj _ => true

/-- `null` and `undefined`: the values on which property access throws. -/
def isNullish : JsVal → Bool
  | JsVal.vnull => true
  | JsVal.vundef => true
  | _ => false

/-- A value on which property access does not throw. -/
def accessible (x : JsVal) : Bool := !isNullish x

/-- Strict equality `===`.  Primitives compare by value; a composite
(array/object) compares equal to nothing, which is faithful here because
the two sides of every `===` in the source are nodes of freshly parsed
JSON trees (never the same reference). -/
def strictEq : JsVal → JsVal → Bool
  | JsVal.vnull, JsVal.vnull => true
  | JsVal.vundef, JsVal.vundef => true
  | JsVal.vbool a, JsVal.vbool b => a == b
  | JsVal.vnum a, JsVal.vnum b => a == b
  | JsVal.vstr a, JsVal.vstr b => a == b
  | _, _ => false

/-- Total property read: named field of an object, `undefined` on
everything else (primitives box to objects without such a field; the
named fields the program reads are never array/string built-ins). -/
def getFieldD (v : JsVal) (f : String) : JsVal :=
  match v with
  | JsVal.vobj fs => (fs.lookup f).getD JsVal.vundef
  | _ => JsVal.vundef

/-- Property read `v.f`: throws a TypeError on `null`/`undefined`
(message text modelled after Node, without the quote marks). -/
def getField (v : JsVal) (f : String) : Except String JsVal :=
  match v with
  | JsVal.vnull => Except.error ("TypeError: Cannot read properties of null (reading " ++ f ++ ")")
  | JsVal.vundef => Except.error ("TypeError: Cannot read properties of undefined (reading " ++ f ++ ")")
  | v => Except.ok (getFieldD v f)

/-- Property assignment on an object field list: replace in place when
the key exists, append otherwise (JS object key order). -/
def setObjField (fs : List (String × JsVal)) (f : String) (v : JsVal) : List (String × JsVal) :=
  if (fs.lookup f).isSome then
    fs.map (fun q => if q.1 = f then (f, v) else q)
  else
    fs ++ [(f, v)]

/-- Property write `v.f = x`: throws on `null`/`undefined`, updates an
object, and is a silent no-op on primitives (non-strict mode). -/
def setField (v : JsVal) (f : String) (x : JsVal) : Except String JsVal :=
  match v with
  | JsVal.vnull => Except.error ("TypeError: Cannot set properties of null (setting " ++ f ++ ")")
  | JsVal.vundef => Except.error ("TypeError: Cannot set properties of undefined (setting " ++ f ++ ")")
  | JsVal.vobj fs => Except.ok (JsVal.vobj (setObjField fs f x))
  | other => Except.ok other

/-- The separator-joining loop pattern the source uses three times
(`acc += xs[i]; if (i < xs.length - 1) acc += sep`). -/
def joinSep : List String → String → String
  | [], _ => ""
  | [x], _ => x
  | x :: y :: rest, sep => x ++ sep ++ joinSep (y :: rest) sep

/-- One side of JavaScript `trim`: drop leading whitespace. -/
def dropWs (cs : List Char) : List Char :=
  cs.dropWhile (fun c => c = ' ' || c = '\t' || c = '\n' || c = '\r')

/-- JavaScript `s.trim()` (kernel-reducible, unlike `String.trim`). -/
def jsTrim (s : String) : String :=
  String.mk ((dropWs ((dropWs s.toList).reverse)).reverse)

/-- JavaScript `s.toLowerCase()`, restricted to ASCII case mapping (the
only casing this catalog exercises). -/
def jsLower (s : String) : String :=
  String.mk (s.toList.map Char.toLower)

mutual

/-- JavaScript `String(x)` / string-concatenation coercion.  Array
elements that are `null`/`undefined` render as empty text inside the
comma join, as `Array.prototype.toString` does. -/
def jsToString : JsVal → String
  | JsVal.vnull => "null"
  | JsVal.vundef => "undefined"
  | JsVal.vbool b => cond b "true" "false"
  | JsVal.vnum n => toString n
  | JsVal.vstr s => s
  | JsVal.vobj _ => "[object Object]"
  | JsVal.varr xs => joinSep (jsArrStrings xs) ","

/-- Renderings of the elements of an array under `String`. -/
def jsArrStrings : List JsVal → List String
  | [] => []
  | x :: rest => (if isNullish x then "" else jsToString x) :: jsArrStrings rest

end

/-- Longest digit prefix, as `parseInt` consumes it. -/
def takeDigits : List Char → List Char
  | [] => []
  | c :: cs => if c.isDigit then c :: takeDigits cs else []

/-- Numeric value of a digit list. -/
def digitsToNat (cs : List Char) : Nat :=
  cs.foldl (fun acc c => acc * 10 + (c.toNat - 48)) 0

/-- `parseInt(s, 10)`: skip surrounding whitespace, optional sign, then
the longest digit prefix; `none` models `NaN` (no digits at all). -/
def jsParseInt (str : String) : Option Int :=
  match (jsTrim str).toList with
  | '-' :: rest =>
    let ds := takeDigits rest
    if ds = [] then none else some (-(digitsToNat ds : Int))
  | '+' :: rest =>
    let ds := takeDigits rest
    if ds = [] then none else some ((digitsToNat ds : Int))
  | rest =>
    let ds := takeDigits rest
    if ds = [] then none else some ((digitsToNat ds : Int))

/-- `Number(s)` for strings, restricted to the integer literals that can
occur here; fractional/exponent/hex forms are not modelled (they would
only affect `formatDate` rendering, which no operation stores). -/
def strToNumber (s : String) : Option Int :=
  let t := jsTrim s
  if t = "" then some 0
  else
    match t.toList with
    | '-' :: rest => if rest ≠ [] ∧ rest.all Char.isDigit then some (-(digitsToNat rest : Int)) else none
    | '+' :: rest => if rest ≠ [] ∧ rest.all Char.isDigit then some ((digitsToNat rest : Int)) else none
    | cs => if cs.all Char.isDigit then some ((digitsToNat cs : Int)) else none

mutual

/-- `Number(x)`; `none` models `NaN`. -/
def jsToNumber : JsVal → Option Int
  | JsVal.vnull => some 0
  | JsVal.vundef => none
  | JsVal.vbool b => some (cond b 1 0)
  | JsVal.vnum n => some n
  | JsVal.vstr s => strToNumber s
  | JsVal.varr xs => jsArrToNumber xs
  | JsVal.vobj _ => none

/-- `Number` of an array: empty is 0, a single element converts
recursively, more than one element is `NaN`. -/
def jsArrToNumber : List JsVal → Option Int
  | [] => some 0
  | [x] => jsToNumber x
  | _ :: _ :: _ => none

end

/-- The elements visited by an index loop `for (i = 0; i < v.length; i++)`
reading `v[i]`: array elements, one-character strings for a string, and
nothing for any other value (whose `length` is `undefined`, so the loop
condition is false). -/
def elems : JsVal → List JsVal
  | JsVal.varr xs => xs
  | JsVal.vstr s => s.toList.map (fun c => JsVal.vstr (String.singleton c))
  | _ => []

/-- Indexed read `v[i]` for the index values the source uses. -/
def jsIndex (v : JsVal) (i : Nat) : JsVal :=
  match v with
  | JsVal.varr xs => (xs.get? i).getD JsVal.vundef
  | JsVal.vstr s => ((s.toList.get? i).map (fun c => JsVal.vstr (String.singleton c))).getD JsVal.vundef
  | _ => JsVal.vundef

/-- Indexed write `v[i] = x`: updates an array element; on any other
value the source never reaches it with a structural effect we must keep
(string index writes are silent no-ops). -/
def jsSet (v : JsVal) (i : Nat) (x : JsVal) : JsVal :=
  match v with
  | JsVal.varr xs => JsVal.varr (xs.set i x)
  | other => other

/-- The `v || []` idiom. -/
def orEmptyArr (v : JsVal) : JsVal :=
  if truthy v then v else JsVal.varr []

/-- The `(v || '')` idiom followed by string-concatenation coercion. -/
def orEmptyStr (v : JsVal) : String :=
  if truthy v then jsToString v else ""

/-- `v.push(x)`: appends on an array, throws on anything else (the `||`
guard upstream rules out `null`/`undefined`). -/
def jsPush (v : JsVal) (x : JsVal) : Except String JsVal :=
  match v with
  | JsVal.varr xs => Except.ok (JsVal.varr (xs ++ [x]))
  | JsVal.vnull => Except.error "TypeError: Cannot read properties of null (reading push)"
  | JsVal.vundef => Except.error "TypeError: Cannot read properties of undefined (reading push)"
  | _ => Except.error "TypeError: push is not a function"

/-- Method call `v.toLowerCase()`: lowercases a string, throws on
everything else (message text abstracted). -/
def jsToLowerCase (v : JsVal) : Except String String :=
  match v with
  | JsVal.vstr s => Except.ok (jsLower s)
  | JsVal.vnull => Except.error "TypeError: Cannot read properties of null (reading toLowerCase)"
  | JsVal.vundef => Except.error "TypeError: Cannot read properties of undefined (reading toLowerCase)"
  | _ => Except.error "TypeError: toLowerCase is not a function"

/-- One observable event of a session. -/
inductive Event : Type where
  | readF : String → Event
  | writeF : String → JsVal → Event
  | prm : String → Event
  | out : String → Event

/-- Session state: the file system as seen through `readJson` (`none`
means the read or the parse fails), per-file write success, the error
message texts the host would supply, the host locale date renderer, the
pending prompt inputs, and the event trace so far. -/
structure S : Type where
  files : String → Option JsVal
  writeOk : String → Bool
  readErrMsg : String → String
  writeErrMsg : String → String
  locale : Int → String
  inputs : List String
  tr : List Event

/-- The session monad: state plus thrown-error channel. -/
def M (α : Type) : Type := S → S × Except String α

instance : Monad M where
  pure a := fun s => (s, Except.ok a)
  bind x f := fun s =>
    match x s with
    | (s1, Except.ok a) => f a s1
    | (s1, Except.error e) => (s1, Except.error e)


/-- `prompt(text)`: displays the prompt text and consumes the next input
line. -/
def promptM (text : String) : M String := fun s =>
  ({ s with inputs := s.inputs.tail, tr := s.tr ++ [Event.prm text] },
   Except.ok (s.inputs.headD ""))

/-- `console.log(line)`. -/
def output (line : String) : M Unit := fun s =>
  ({ s with tr := s.tr ++ [Event.out line] }, Except.ok ())

/-- Lift a possibly-throwing pure computation into the session. -/
def liftExc {α : Type} (e : Except String α) : M α := fun s => (s, e)

/-- Read the host locale renderer. -/
def getLocale : M (Int → String) := fun s => (s, Except.ok s.locale)

/-- `readJson(filePath)` (app.js lines 12-20): parsed document on
success; on failure logs a diagnostic and yields `null`. -/
def readJson (filePath : String) : M JsVal := fun s =>
  match s.files filePath with
  | some v => ({ s with tr := s.tr ++ [Event.readF filePath] }, Except.ok v)
  | none =>
    ({ s with tr := s.tr ++ [Event.readF filePath,
        Event.out ("Error reading file " ++ filePath ++ " - " ++ s.readErrMsg filePath)] },
     Except.ok JsVal.vnull)

/-- `writeJson(filePath, data)` (app.js lines 28-34): replaces the whole
document on success; on failure logs a diagnostic and otherwise does
nothing (the error is swallowed).  Serialize-then-reparse is the
identity for the `undefined`-free values this program writes. -/
def writeJson (filePath : String) (data : JsVal) : M Unit := fun s =>
  if s.writeOk filePath then
    ({ s with files := fun p => if p = filePath then some data else s.files p,
              tr := s.tr ++ [Event.writeF filePath data] },
     Except.ok ())
  else
    ({ s with tr := s.tr ++ [Event.writeF filePath data,
        Event.out ("Error writing file " ++ filePath ++ " - " ++ s.writeErrMsg filePath)] },
     Except.ok ())

def PHOTOS_FILE : String := "photos.json"

def ALBUMS_FILE : String := "albums.json"

/-- The scan loop of `findPhotoById` (app.js lines 46-50). -/
def findPhotoByIdLoop (xs : List JsVal) (id : Int) : Except String JsVal :=
  match xs with
  | [] => Except.ok JsVal.vnull
  | x :: rest =>
    match getField x "id" with
    | Except.error e => Except.error e
    | Except.ok v =>
      if strictEq v (JsVal.vnum id) then Except.ok x else findPhotoByIdLoop rest id

/-- `findPhotoById(photos, id)` (app.js lines 42-52). -/
def findPhotoById (photos : JsVal) (id : Int) : Except String JsVal :=
  match photos with
  | JsVal.varr xs => findPhotoByIdLoop xs id
  | _ => Except.ok JsVal.vnull

/-- `new Date(n).getTime()` is a number exactly within the ECMAScript
time range. -/
def dateValid (n : Int) : Bool := n.natAbs ≤ 8640000000000000

/-- `formatDate(timestamp)` (app.js lines 59-68); the en-US long-form
rendering of a valid timestamp is supplied by the host `locale`. -/
def formatDate (locale : Int → String) (v : JsVal) : String :=
  match v with
  | JsVal.vundef => "Unknown"
  | JsVal.vnull => "Unknown"
  | t =>
    match jsToNumber t with
    | none => "Invalid date"
    | some n => if dateValid n then locale n else "Invalid date"

/-- The album-name lookup loop inside `displayPhoto` (app.js lines
88-96): first album whose `id` strictly equals the requested entry; the
match contributes that album's `name`, a miss contributes nothing. -/
def albumNameLookup (xs : List JsVal) (aId : JsVal) : Except String (Option JsVal) :=
  match xs with
  | [] => Except.ok none
  | a :: rest =>
    match getField a "id" with
    | Except.error e => Except.error e
    | Except.ok v =>
      if strictEq v aId then
        match getField a "name" with
        | Except.error e => Except.error e
        | Except.ok nm => Except.ok (some nm)
      else albumNameLookup rest aId

/-- The outer loop of the same passage: collect the names of the albums
the photo belongs to, dropping dangling identifiers. -/
def collectAlbumNames (albumIds : List JsVal) (albums : JsVal) : Except String (List JsVal) :=
  match albumIds with
  | [] => Except.ok []
  | aId :: rest =>
    match albumNameLookup (elems albums) aId with
    | Except.error e => Except.error e
    | Except.ok none =>
      collectAlbumNames rest albums
    | Except.ok (some nm) =>
      match collectAlbumNames rest albums with
      | Except.error e => Except.error e
      | Except.ok nms => Except.ok (nm :: nms)

/-- `displayPhoto(photo, albums)` (app.js lines 76-116). -/
def displayPhoto (photo : JsVal) (albums : JsVal) : M Unit := do
  if truthy photo = false then
    output "No photo to display"
  else do
    let fn ← liftExc (getField photo "filename")
    output ("Filename: " ++ orEmptyStr fn)
    let ti ← liftExc (getField photo "title")
    output ("Title: " ++ orEmptyStr ti)
    let dt ← liftExc (getField photo "date")
    let loc ← getLocale
    output ("Date: " ++ formatDate loc dt)
    let aIdsV ← liftExc (getField photo "albums")
    let albumNames ← liftExc (collectAlbumNames (elems (orEmptyArr aIdsV)) albums)
    let albumStr := joinSep (albumNames.map jsToString) ", "
    output ("Albums: " ++ (if albumStr = "" then "None" else albumStr))
    let tagsV ← liftExc (getField photo "tags")
    let tagStr := joinSep ((elems (orEmptyArr tagsV)).map jsToString) ", "
    output ("Tags: " ++ (if tagStr = "" then "None" else tagStr))

/-- `findPhotoFeature()` (app.js lines 123-142). -/
def findPhotoFeature : M Unit := do
  let idInput ← promptM "Photo ID? "
  match jsParseInt idInput with
  | none => output "Invalid ID"
  | some id => do
    let photos ← readJson PHOTOS_FILE
    let albums ← readJson ALBUMS_FILE
    if !truthy photos || !truthy albums then
      output "Could not load data files"
    else do
      let photo ← liftExc (findPhotoById photos id)
      if truthy photo = false then
        output "Photo not found"
      else
        displayPhoto photo albums

/-- The index-search loop shared by `updatePhotoDetailsFeature`
(app.js lines 161-167) and `tagPhotoFeature` (app.js lines 272-278):
index of the first element whose `id` strictly equals the parsed id,
`-1` (here `none`) when there is none. -/
def photoIndexLoop (xs : List JsVal) (id : Int) (i : Nat) : Except String (Option Nat) :=
  match xs with
  | [] => Except.ok none
  | x :: rest =>
    match getField x "id" with
    | Except.error e => Except.error e
    | Except.ok v =>
      if strictEq v (JsVal.vnum id) then Except.ok (some i)
      else photoIndexLoop rest id (i + 1)

/-- `updatePhotoDetailsFeature()` (app.js lines 149-185). -/
def updatePhotoDetailsFeature : M Unit := do
  let idInput ← promptM "Photo ID? "
  match jsParseInt idInput with
  | none => output "Invalid ID"
  | some id => do
    let photos ← readJson PHOTOS_FILE
    if truthy photos = false then
      output "Could not load photos"
    else do
      let idx ← liftExc (photoIndexLoop (elems photos) id 0)
      match idx with
      | none => output "Photo not found"
      | some index => do
        let photo := jsIndex photos index
        output "Press enter to reuse existing value."
        let tiV ← liftExc (getField photo "title")
        let newTitle ← promptM ("Enter value for title [" ++ orEmptyStr tiV ++ "]: ")
        let photo1 ←
          if jsTrim newTitle ≠ "" then
            liftExc (setField photo "title" (JsVal.vstr newTitle))
          else
            pure photo
        let deV ← liftExc (getField photo1 "description")
        let newDesc ← promptM ("Enter value for description [" ++ orEmptyStr deV ++ "]: ")
        let photo2 ←
          if jsTrim newDesc ≠ "" then
            liftExc (setField photo1 "description" (JsVal.vstr newDesc))
          else
            pure photo1
        let photos2 := jsSet photos index photo2
        writeJson PHOTOS_FILE photos2
        output "Photo updated"

/-- The album-search loop of `albumPhotoListFeature` (app.js lines
204-210): first album whose truthy `name` lowercases to the
trimmed-lowercased requested name; the stored name is NOT trimmed. -/
def albumSearchLoop (xs : List JsVal) (needle : String) : Except String JsVal :=
  match xs with
  | [] => Except.ok JsVal.vnull
  | a :: rest =>
    match getField a "name" with
    | Except.error e => Except.error e
    | Except.ok nm =>
      if truthy nm then
        match jsToLowerCase nm with
        | Except.error e => Except.error e
        | Except.ok lower =>
          if lower = needle then Except.ok a else albumSearchLoop rest needle
      else albumSearchLoop rest needle

/-- The membership loop of `albumPhotoListFeature` (app.js lines
221-226): does the photo's `albums` sequence contain the album id? -/
def belongsLoop (xs : List JsVal) (albumId : JsVal) : Bool :=
  match xs with
  | [] => false
  | x :: rest => if strictEq x albumId then true else belongsLoop rest albumId

/-- Resolution rendering of `albumPhotoListFeature` (app.js lines
231-236): a two-element pair renders as `WxH` via `String`, text passes
through, anything falsy renders as empty text. -/
def formatResolution (r : JsVal) : String :=
  match r with
  | JsVal.varr xs =>
    jsToString ((xs.get? 0).getD JsVal.vundef) ++ "x" ++ jsToString ((xs.get? 1).getD JsVal.vundef)
  | other => orEmptyStr other

/-- One iteration of the photo loop of `albumPhotoListFeature` (app.js
lines 217-246): `none` when the photo does not belong to the album,
otherwise the rendered CSV row. -/
def albumRowStep (albumId : JsVal) (p : JsVal) : Except String (Option String) :=
  match getField p "albums" with
  | Except.error e => Except.error e
  | Except.ok pAlbumsV =>
    if belongsLoop (elems (orEmptyArr pAlbumsV)) albumId = false then
      Except.ok none
    else
      match getField p "resolution" with
      | Except.error e => Except.error e
      | Except.ok resV =>
        match getField p "tags" with
        | Except.error e => Except.error e
        | Except.ok tagsV =>
          match getField p "filename" with
          | Except.error e => Except.error e
          | Except.ok fn =>
            Except.ok (some (jsToString fn ++ "," ++ formatResolution resV ++ ","
              ++ joinSep ((elems (orEmptyArr tagsV)).map jsToString) ":"))

/-- The photo loop of `albumPhotoListFeature`, printing each row. -/
def albumRowsLoop (albumId : JsVal) (ps : List JsVal) : M Unit :=
  match ps with
  | [] => pure ()
  | p :: rest =>
    match albumRowStep albumId p with
    | Except.error e => liftExc (Except.error e)
    | Except.ok none => albumRowsLoop albumId rest
    | Except.ok (some line) => do
      output line
      albumRowsLoop albumId rest

/-- `albumPhotoListFeature()` (app.js lines 192-247).  `foundAlbum.id`
is hoisted out of the loop: the found album is a truthy non-null value,
so the repeated reads cannot throw and always yield the same value. -/
def albumPhotoListFeature : M Unit := do
  let albumNameInput ← promptM "What is the name of the album? "
  if jsTrim albumNameInput = "" then
    output "Album name required"
  else do
    let albums ← readJson ALBUMS_FILE
    let photos ← readJson PHOTOS_FILE
    if !truthy albums || !truthy photos then
      output "Could not load data"
    else do
      let foundAlbum ← liftExc (albumSearchLoop (elems albums) (jsLower (jsTrim albumNameInput)))
      if truthy foundAlbum = false then
        output "Album not found"
      else do
        let albumId ← liftExc (getField foundAlbum "id")
        output "filename,resolution,tags"
        albumRowsLoop albumId (elems photos)

/-- The duplicate-check loop of `tagPhotoFeature` (app.js lines
284-290): is some existing tag case-insensitively equal to the tag to
add? -/
def dupLoop (ts : List JsVal) (needle : String) : Bool :=
  match ts with
  | [] => false
  | t :: rest => if jsLower (jsToString t) = needle then true else dupLoop rest needle

/-- `tagPhotoFeature()` (app.js lines 254-299). -/
def tagPhotoFeature : M Unit := do
  let idInput ← promptM "What photo ID to tag? "
  match jsParseInt idInput with
  | none => output "Invalid ID"
  | some id => do
    let tagInput ← promptM "What tag to add (single tag)? "
    if jsTrim tagInput = "" then
      output "Tag cannot be empty"
    else do
      let tagToAdd := jsTrim tagInput
      let photos ← readJson PHOTOS_FILE
      if truthy photos = false then
        output "Could not load photos"
      else do
        let idx ← liftExc (photoIndexLoop (elems photos) id 0)
        match idx with
        | none => output "Photo not found"
        | some index => do
          let tagsV ← liftExc (getField (jsIndex photos index) "tags")
          let tagsArr := orEmptyArr tagsV
          if dupLoop (elems tagsArr) (jsLower tagToAdd) then
            output "Tag already exists, no changes made"
          else do
            let newTags ← liftExc (jsPush tagsArr (JsVal.vstr tagToAdd))
            let photo2 ← liftExc (setField (jsIndex photos index) "tags" newTags)
            let photos2 := jsSet photos index photo2
            writeJson PHOTOS_FILE photos2
            output "Updated!"

/-- The menu block printed at the top of every loop iteration (app.js
lines 309-314). -/
def menuBody : M Unit := do
  output ""
  output "1. Find Photo"
  output "2. Update Photo Details"
  output "3. Album Photo List"
  output "4. Tag Photo"
  output "5. Exit"

/-- The `while (true)` menu loop (app.js lines 308-330), totalised with
fuel; the zero-fuel case never corresponds to a source behaviour and is
only reached when the caller under-supplies fuel. -/
def mainLoop : Nat → M Unit
  | 0 => pure ()
  | Nat.succ n => do
    menuBody
    let selection ← promptM "Your selection> "
    if jsTrim selection = "1" then do
      findPhotoFeature
      mainLoop n
    else if jsTrim selection = "2" then do
      updatePhotoDetailsFeature
      mainLoop n
    else if jsTrim selection = "3" then do
      albumPhotoListFeature
      mainLoop n
    else if jsTrim selection = "4" then do
      tagPhotoFeature
      mainLoop n
    else if jsTrim selection = "5" then
      output "Goodbye"
    else do
      output "Invalid selection"
      mainLoop n

/-- The body of the `try` block of `main` (app.js lines 307-330). -/
def mainBody (fuel : Nat) : M Unit := do
  output "Digital Media Catalog - INFS3201"
  mainLoop fuel

/-- `main()` (app.js lines 305-334), named `mainFn` here because `main`
is reserved: the whole menu loop runs inside one `try`; a propagated
error is logged with its message and the function then returns (the
loop is not re-entered). -/
def mainFn (fuel : Nat) : M Unit := fun s =>
  match mainBody fuel s with
  | (s1, Except.ok a) => (s1, Except.ok a)
  | (s1, Except.error e) =>
    ({ s1 with tr := s1.tr ++ [Event.out ("Unexpected error " ++ e)] }, Except.ok ())

/-- A file or console event that touches persistent storage. -/
def isFileEvent : Event → Bool
  | Event.readF _ => true
  | Event.writeF _ _ => true
  | _ => false

/-- A convenient session state: given the file contents, one write
flag for every file, and the input lines. -/
def mkS (files : String → Option JsVal) (wOk : Bool) (ins : List String) : S :=
  { files := files, writeOk := fun _ => wOk, readErrMsg := fun _ => "boom",
    writeErrMsg := fun _ => "disk full", locale := fun _ => "January 1, 1970",
    inputs := ins, tr := [] }

/-- The matching predicate the album scan actually implements: the
stored `name` must be a truthy string whose lowercasing — with NO
trimming — equals the trimmed-lowercased requested name. -/
def albumNameMatches (input : String) (a : JsVal) : Bool :=
  match getFieldD a "name" with
  | JsVal.vstr t => (t != "") && (jsLower t == jsLower (jsTrim input))
  | _ => false

/-- An album record the scan can visit without throwing: property
access succeeds and a truthy `name` is a string (so `toLowerCase` is
callable). -/
def albumScanOk (a : JsVal) : Bool :=
  accessible a &&
    (match getFieldD a "name" with
     | JsVal.vstr _ => true
     | nm => !truthy nm)

/-- A catalog whose photos document holds `[null]`: scanning it for a
photo id throws a TypeError inside the feature, which nothing catches
below the top level. -/
def crashFiles : String → Option JsVal := fun p =>
  if p = "photos.json" then some (JsVal.varr [JsVal.vnull])
  else if p = "albums.json" then some (JsVal.varr []) else none

/-! ### Sample catalog used by the witnesses -/

/-- Field list of a sample photo record. -/
def photoOneFields : List (String × JsVal) :=
  [("id", JsVal.vnum 1), ("filename", JsVal.vstr "a.jpg"), ("title", JsVal.vstr "A"),
   ("description", JsVal.vstr "old"), ("tags", JsVal.varr [JsVal.vstr "x"]),
   ("albums", JsVal.varr [JsVal.vnum 10])]

/-- A sample photo record. -/
def photoOne : JsVal := JsVal.vobj photoOneFields

/-- A sample album record. -/
def albumTen : JsVal := JsVal.vobj [("id", JsVal.vnum 10), ("name", JsVal.vstr "Trip")]

/-- A healthy catalog: one photo, one album. -/
def catFiles : String → Option JsVal := fun q =>
  if q = "photos.json" then some (JsVal.varr [photoOne])
  else if q = "albums.json" then some (JsVal.varr [albumTen]) else none

/-- A catalog with a single photo carrying no tags yet. -/
def beachFiles : String → Option JsVal := fun q =>
  if q = "photos.json" then
    some (JsVal.varr [JsVal.vobj [("id", JsVal.vnum 1), ("tags", JsVal.varr [])]])
  else none

/-- Membership of a photo in an album, as the claim states it: the
photo's `albums` sequence (empty when absent) contains a member
strictly equal to the album id. -/
def photoBelongs (albumId : JsVal) (p : JsVal) : Bool :=
  (elems (orEmptyArr (getFieldD p "albums"))).any (fun x => strictEq x albumId)

/-- The CSV row of a photo, as the claim states it:
`<filename>,<resolution>,<tags>` with the tags joined by a colon and no
fallback text. -/
def photoRowSpec (p : JsVal) : String :=
  jsToString (getFieldD p "filename") ++ "," ++ formatResolution (getFieldD p "resolution")
    ++ "," ++ String.intercalate ":" ((elems (orEmptyArr (getFieldD p "tags"))).map jsToString)

/-! ### Lemmas: the session monad applied to a state -/

theorem M.bind_apply {α β : Type} (x : M α) (f : α → M β) (s : S) :
    (x >>= f) s =
      match x s with
      | (s1, Except.ok a) => f a s1
      | (s1, Except.error e) => (s1, Except.error e) := rfl

theorem M.pure_apply {α : Type} (a : α) (s : S) :
    (pure a : M α) s = (s, Except.ok a) := rfl

/-! ### Basic lemmas about the JavaScript primitives -/

theorem getField_ok_of_accessible (x : JsVal) (f : String) (h : accessible x = true) :
    getField x f = Except.ok (getFieldD x f) := by
  cases x <;> simp_all [accessible, isNullish, getField]

theorem getField_ok_elim {x : JsVal} {f : String} {v : JsVal}
    (h : getField x f = Except.ok v) : v = getFieldD x f := by
  cases x <;> simp_all [getField]

/-! ### Claim C7 -/

/-- Claim C7: for every photos value and every integer id,
`findPhotoById` returns the first photo whose `id` field is strictly
equal to the requested integer and an absent result (`null`) when no
photo matches — stated over arrays of property-accessible elements, the
only values the scan can visit without the access itself throwing — and
on any non-array input it returns the absent result instead of
throwing; strict equality never identifies a string identifier with the
requested integer. -/
theorem C7_findPhotoById_contract :
    (∀ (v : JsVal) (id : Int), (∀ xs, v ≠ JsVal.varr xs) →
      findPhotoById v id = Except.ok JsVal.vnull) ∧
    (∀ (xs : List JsVal) (id : Int), xs.all accessible = true →
      findPhotoById (JsVal.varr xs) id =
        Except.ok ((xs.find? (fun x => strictEq (getFieldD x "id") (JsVal.vnum id))).getD
          JsVal.vnull)) ∧
    (∀ (t : String) (n : Int), strictEq (JsVal.vstr t) (JsVal.vnum n) = false) := by
  refine ⟨?_, ?_, ?_⟩
  · intro v id h
    cases v <;> first
      | rfl
      | exact absurd rfl (h _)
  · intro xs id h
    show findPhotoByIdLoop xs id = _
    induction xs with
    | nil => rfl
    | cons x rest ih =>
      simp only [List.all_cons, Bool.and_eq_true] at h
      rw [findPhotoByIdLoop, getField_ok_of_accessible x "id" h.1]
      by_cases hc : strictEq (getFieldD x "id") (JsVal.vnum id) = true
      · simp [List.find?, hc]
      · simp only [Bool.not_eq_true] at hc
        simp [List.find?, hc, ih h.2]
  · intro t n
    rfl

/-- Witness for C7: a concrete array in which a string identifier
`"1"` is skipped and the first of two records with integer id 1 is
returned, plus a non-array input yielding the absent result. -/
theorem C7_findPhotoById_contract_witness :
    findPhotoById (JsVal.varr [JsVal.vobj [("id", JsVal.vstr "1")],
        JsVal.vobj [("id", JsVal.vnum 1), ("title", JsVal.vstr "first")],
        JsVal.vobj [("id", JsVal.vnum 1), ("title", JsVal.vstr "second")]]) 1 =
      Except.ok (JsVal.vobj [("id", JsVal.vnum 1), ("title", JsVal.vstr "first")]) ∧
    findPhotoById (JsVal.vobj []) 1 = Except.ok JsVal.vnull := by
  constructor
  · rw [C7_findPhotoById_contract.2.1
      [JsVal.vobj [("id", JsVal.vstr "1")],
       JsVal.vobj [("id", JsVal.vnum 1), ("title", JsVal.vstr "first")],
       JsVal.vobj [("id", JsVal.vnum 1), ("title", JsVal.vstr "second")]] 1 rfl]
    rfl
  · exact C7_findPhotoById_contract.1 (JsVal.vobj []) 1 (fun xs h => JsVal.noConfusion h)

/-! ### Claim C2 -/


/-- Counterexample to claim C2 as stated: the stored album name is
lowercased but never trimmed, so a stored `" summer "` fails to match
the requested `"summer"` even though the two sides are equal after
trimming and lowercasing both. -/
theorem C2_counterexample_stored_name_not_trimmed :
    albumSearchLoop [JsVal.vobj [("id", JsVal.vnum 1), ("name", JsVal.vstr " summer ")]]
        (jsLower (jsTrim "summer")) = Except.ok JsVal.vnull ∧
    jsLower (jsTrim " summer ") = jsLower (jsTrim "summer") :=
  ⟨rfl, rfl⟩

/-- Claim C2 as amended: album lookup returns the first album with a
truthy string `name` whose lowercased — untrimmed — stored spelling
equals the trimmed-lowercased requested name, and the absent result
when none matches; so the match is case-insensitive on both sides but
whitespace-insensitive only on the requested side (`" Summer "` still
matches a stored `"summer"`, and `"Summer2"` does not). -/
theorem C2_amended_album_lookup (xs : List JsVal) (input : String)
    (h : xs.all albumScanOk = true) :
    albumSearchLoop xs (jsLower (jsTrim input)) =
      Except.ok ((xs.find? (albumNameMatches input)).getD JsVal.vnull) ∧
    albumNameMatches " Summer " (JsVal.vobj [("name", JsVal.vstr "summer")]) = true ∧
    albumNameMatches "Summer2" (JsVal.vobj [("name", JsVal.vstr "summer")]) = false := by
  refine ⟨?_, rfl, rfl⟩
  induction xs with
  | nil => rfl
  | cons a rest ih =>
    simp only [List.all_cons, Bool.and_eq_true, albumScanOk] at h
    obtain ⟨⟨ha, hn⟩, hrest⟩ := h
    rw [albumSearchLoop, getField_ok_of_accessible a "name" ha]
    cases hnm : getFieldD a "name" with
    | vstr t =>
      by_cases ht : t = ""
      · have hm : albumNameMatches input a = false := by
          simp [albumNameMatches, hnm, ht]
        subst ht
        simp [truthy, List.find?, hm, ih hrest]
      · by_cases hl : jsLower t = jsLower (jsTrim input)
        · have hm : albumNameMatches input a = true := by
            simp [albumNameMatches, hnm, ht, hl]
          simp [truthy, jsToLowerCase, ht, hl, List.find?, hm]
        · have hm : albumNameMatches input a = false := by
            simp [albumNameMatches, hnm, ht, hl]
          simp [truthy, jsToLowerCase, ht, hl, List.find?, hm, ih hrest]
    | vnull =>
      have hm : albumNameMatches input a = false := by simp [albumNameMatches, hnm]
      simp [truthy, List.find?, hm, ih hrest]
    | vundef =>
      have hm : albumNameMatches input a = false := by simp [albumNameMatches, hnm]
      simp [truthy, List.find?, hm, ih hrest]
    | vbool b =>
      have hm : albumNameMatches input a = false := by simp [albumNameMatches, hnm]
      rw [hnm] at hn
      simp only [truthy, Bool.not_eq_true'] at hn
      subst hn
      simp [truthy, List.find?, hm, ih hrest]
    | vnum n =>
      have hm : albumNameMatches input a = false := by simp [albumNameMatches, hnm]
      rw [hnm] at hn
      simp only [truthy, Bool.not_eq_true'] at hn
      simp [truthy, hn, List.find?, hm, ih hrest]
    | varr ys =>
      have hm : albumNameMatches input a = false := by simp [albumNameMatches, hnm]
      rw [hnm] at hn
      simp [truthy] at hn
    | vobj fs =>
      have hm : albumNameMatches input a = false := by simp [albumNameMatches, hnm]
      rw [hnm] at hn
      simp [truthy] at hn

/-- Witness for the amended C2: `" Summer "` finds the first album
stored as `"summer"`; a stored `" summer "` is invisible to the
requested `"summer"`. -/
theorem C2_amended_album_lookup_witness :
    albumSearchLoop [JsVal.vobj [("id", JsVal.vnum 7), ("name", JsVal.vstr "summer")]]
        (jsLower (jsTrim " Summer ")) =
      Except.ok (JsVal.vobj [("id", JsVal.vnum 7), ("name", JsVal.vstr "summer")]) := by
  rw [(C2_amended_album_lookup
    [JsVal.vobj [("id", JsVal.vnum 7), ("name", JsVal.vstr "summer")]] " Summer " rfl).1]
  rfl

/-! ### Claim C6 -/

/-- Claim C6: on a non-numeric identifier input both Find Photo and Tag
Photo print exactly the prompt and "Invalid ID" and return at once: the
produced events contain no file read and no file write, and the file
system, as part of the unchanged remainder of the state, is untouched. -/
theorem C6_invalid_id_aborts_without_file_access
    (s : S) (idInput : String) (rest : List String)
    (h1 : s.inputs = idInput :: rest) (h2 : jsParseInt idInput = none) :
    findPhotoFeature s =
      ({ s with inputs := rest,
                tr := s.tr ++ [Event.prm "Photo ID? ", Event.out "Invalid ID"] },
       Except.ok ()) ∧
    tagPhotoFeature s =
      ({ s with inputs := rest,
                tr := s.tr ++ [Event.prm "What photo ID to tag? ", Event.out "Invalid ID"] },
       Except.ok ()) ∧
    ([Event.prm "Photo ID? ", Event.out "Invalid ID",
      Event.prm "What photo ID to tag? "].all (fun ev => !isFileEvent ev)) = true := by
  refine ⟨?_, ?_, rfl⟩
  · simp [findPhotoFeature, M.bind_apply, promptM, output, h1, h2, List.append_assoc]
  · simp [tagPhotoFeature, M.bind_apply, promptM, output, h1, h2, List.append_assoc]

/-- Witness for C6 at the concrete non-numeric input "xyz". -/
theorem C6_invalid_id_aborts_without_file_access_witness :
    findPhotoFeature (mkS (fun _ => none) true ["xyz"]) =
      ({ mkS (fun _ => none) true ["xyz"] with
           inputs := [],
           tr := [Event.prm "Photo ID? ", Event.out "Invalid ID"] },
       Except.ok ()) :=
  (C6_invalid_id_aborts_without_file_access (mkS (fun _ => none) true ["xyz"])
    "xyz" [] rfl rfl).1

/-! ### Claim C5 -/


/-- Counterexample to claim C5 as stated: with input remaining (the user
queued "5"), an error thrown inside Find Photo is caught and reported at
the top level, but the trace ends right there — no further menu prompt
event occurs, the selection prompt appears exactly once, and the queued
input is never consumed: the session terminates instead of continuing to
the next menu prompt. -/
theorem C5_counterexample_session_ends_after_error :
    (mainFn 5 (mkS crashFiles true ["1", "1", "5"])).1.tr =
      [Event.out "Digital Media Catalog - INFS3201",
       Event.out "",
       Event.out "1. Find Photo",
       Event.out "2. Update Photo Details",
       Event.out "3. Album Photo List",
       Event.out "4. Tag Photo",
       Event.out "5. Exit",
       Event.prm "Your selection> ",
       Event.prm "Photo ID? ",
       Event.readF "photos.json",
       Event.readF "albums.json",
       Event.out "Unexpected error TypeError: Cannot read properties of null (reading id)"] ∧
    (mainFn 5 (mkS crashFiles true ["1", "1", "5"])).1.inputs = ["5"] ∧
    ((mainFn 5 (mkS crashFiles true ["1", "1", "5"])).1.tr.countP
      (fun ev => match ev with
        | Event.prm t => t == "Your selection> "
        | _ => false)) = 1 :=
  ⟨rfl, rfl, rfl⟩

/-- Claim C5 as amended: an uncaught error raised inside any operation
of the menu loop is caught once at the top level and reported with its
message, after which the loop exits — the session produces nothing
beyond the report and in particular no further menu prompt — and the
caught error never escapes the program (every run of the top level ends
in the success channel). -/
theorem C5_amended_caught_once_then_loop_exits
    (fuel : Nat) (s s1 : S) (e : String)
    (h : mainBody fuel s = (s1, Except.error e)) :
    mainFn fuel s =
      ({ s1 with tr := s1.tr ++ [Event.out ("Unexpected error " ++ e)] }, Except.ok ()) ∧
    (∀ (fuel2 : Nat) (s2 : S), ∃ s3 : S, mainFn fuel2 s2 = (s3, Except.ok ())) := by
  constructor
  · unfold mainFn
    rw [h]
  · intro fuel2 s2
    unfold mainFn
    rcases hm : mainBody fuel2 s2 with ⟨s3, r⟩
    cases r with
    | ok a =>
      exact ⟨s3, rfl⟩
    | error e2 =>
      exact ⟨{ s3 with tr := s3.tr ++ [Event.out ("Unexpected error " ++ e2)] }, rfl⟩

/-- Witness for the amended C5: the concrete crashing session, run with
fuel 1; the hypothesis is discharged by computation. -/
theorem C5_amended_caught_once_then_loop_exits_witness :
    mainFn 1 (mkS crashFiles true ["1", "1", "5"]) =
      ({ mkS crashFiles true ["1", "1", "5"] with
           inputs := ["5"],
           tr := [Event.out "Digital Media Catalog - INFS3201",
                  Event.out "",
                  Event.out "1. Find Photo",
                  Event.out "2. Update Photo Details",
                  Event.out "3. Album Photo List",
                  Event.out "4. Tag Photo",
                  Event.out "5. Exit",
                  Event.prm "Your selection> ",
                  Event.prm "Photo ID? ",
                  Event.readF "photos.json",
                  Event.readF "albums.json"] ++
                 [Event.out ("Unexpected error " ++
                    "TypeError: Cannot read properties of null (reading id)")] },
       Except.ok ()) :=
  (C5_amended_caught_once_then_loop_exits 1 (mkS crashFiles true ["1", "1", "5"])
    ({ mkS crashFiles true ["1", "1", "5"] with
         inputs := ["5"],
         tr := [Event.out "Digital Media Catalog - INFS3201",
                Event.out "",
                Event.out "1. Find Photo",
                Event.out "2. Update Photo Details",
                Event.out "3. Album Photo List",
                Event.out "4. Tag Photo",
                Event.out "5. Exit",
                Event.prm "Your selection> ",
                Event.prm "Photo ID? ",
                Event.readF "photos.json",
                Event.readF "albums.json"] })
    "TypeError: Cannot read properties of null (reading id)" rfl).1

/-! ### The Update Photo Details run lemma (shared by C3, C9, C10) -/

/-- Full characterisation of an Update Photo Details run that parses the
id, loads the photos array, and finds a matching object at index `i`:
the two replacement inputs are applied to `title` and `description`
under the blank-keeps rule, the whole collection is written back, and
"Photo updated" is printed — after a failure diagnostic when the write
fails. -/
theorem updateFeature_run
    (s : S) (idInput newTitle newDesc : String) (rest : List String)
    (id : Int) (xs : List JsVal) (i : Nat) (p : List (String × JsVal))
    (h1 : s.inputs = idInput :: newTitle :: newDesc :: rest)
    (h2 : jsParseInt idInput = some id)
    (h3 : s.files PHOTOS_FILE = some (JsVal.varr xs))
    (h4 : photoIndexLoop xs id 0 = Except.ok (some i))
    (h5 : xs[i]? = some (JsVal.vobj p)) :
    updatePhotoDetailsFeature s =
      (let p1 := if jsTrim newTitle ≠ "" then setObjField p "title" (JsVal.vstr newTitle) else p
       let p2 := if jsTrim newDesc ≠ "" then setObjField p1 "description" (JsVal.vstr newDesc) else p1
       let doc := JsVal.varr (xs.set i (JsVal.vobj p2))
       let pre := [Event.prm "Photo ID? ", Event.readF PHOTOS_FILE,
         Event.out "Press enter to reuse existing value.",
         Event.prm ("Enter value for title [" ++
           orEmptyStr ((p.lookup "title").getD JsVal.vundef) ++ "]: "),
         Event.prm ("Enter value for description [" ++
           orEmptyStr ((p1.lookup "description").getD JsVal.vundef) ++ "]: ")]
       if s.writeOk PHOTOS_FILE then
         ({ s with inputs := rest,
                   files := fun q => if q = PHOTOS_FILE then some doc else s.files q,
                   tr := s.tr ++ pre ++ [Event.writeF PHOTOS_FILE doc, Event.out "Photo updated"] },
          Except.ok ())
       else
         ({ s with inputs := rest,
                   tr := s.tr ++ pre ++ [Event.writeF PHOTOS_FILE doc,
                     Event.out ("Error writing file " ++ PHOTOS_FILE ++ " - " ++
                       s.writeErrMsg PHOTOS_FILE),
                     Event.out "Photo updated"] },
          Except.ok ())) := by
  by_cases ht : jsTrim newTitle = "" <;> by_cases hd : jsTrim newDesc = "" <;>
    by_cases hw : s.writeOk PHOTOS_FILE = true <;>
    simp [updatePhotoDetailsFeature, M.bind_apply, promptM, output, liftExc, readJson,
      writeJson, getLocale, jsIndex, jsSet, elems, getField, getFieldD, setField, truthy,
      h1, h2, h3, h4, h5, ht, hd, hw, List.append_assoc]

/-! ### Lemmas about object-field assignment and the index scan -/

theorem lookup_cons_self (k : String) (w : JsVal) (rest : List (String × JsVal)) :
    List.lookup k ((k, w) :: rest) = some w := by
  simp [List.lookup]

theorem lookup_cons_ne (g k : String) (w : JsVal) (rest : List (String × JsVal))
    (h : g ≠ k) : List.lookup g ((k, w) :: rest) = List.lookup g rest := by
  have hb : (g == k) = false := beq_eq_false_iff_ne.mpr h
  simp [List.lookup, hb]

theorem lookup_replaceKey_self (p : List (String × JsVal)) (f : String) (v : JsVal)
    (h : (List.lookup f p).isSome = true) :
    List.lookup f (p.map (fun q => if q.1 = f then (f, v) else q)) = some v := by
  induction p with
  | nil => simp [List.lookup] at h
  | cons a rest ih =>
    rcases a with ⟨k, w⟩
    by_cases hk : k = f
    · subst hk
      have hstep : (if ((k, w) : String × JsVal).1 = k then ((k, v) : String × JsVal) else (k, w)) = (k, v) := by
        simp
      rw [List.map_cons, hstep, lookup_cons_self]
    · have hstep : (if ((k, w) : String × JsVal).1 = f then ((f, v) : String × JsVal) else (k, w)) = (k, w) := by
        simp [hk]
      rw [lookup_cons_ne f k w rest (fun he => hk he.symm)] at h
      rw [List.map_cons, hstep, lookup_cons_ne f k w _ (fun he => hk he.symm)]
      exact ih h

theorem lookup_replaceKey_other (p : List (String × JsVal)) (f : String) (v : JsVal)
    (g : String) (hg : g ≠ f) :
    List.lookup g (p.map (fun q => if q.1 = f then (f, v) else q)) = List.lookup g p := by
  induction p with
  | nil => rfl
  | cons a rest ih =>
    rcases a with ⟨k, w⟩
    by_cases hk : k = f
    · subst hk
      have hstep : (if ((k, w) : String × JsVal).1 = k then ((k, v) : String × JsVal) else (k, w)) = (k, v) := by
        simp
      rw [List.map_cons, hstep, lookup_cons_ne g k v _ (fun he => hg (he.trans rfl)),
        lookup_cons_ne g k w rest (fun he => hg (he.trans rfl))]
      exact ih
    · have hstep : (if ((k, w) : String × JsVal).1 = f then ((f, v) : String × JsVal) else (k, w)) = (k, w) := by
        simp [hk]
      by_cases hkg : g = k
      · subst hkg
        rw [List.map_cons, hstep, lookup_cons_self, lookup_cons_self]
      · rw [List.map_cons, hstep, lookup_cons_ne g k w _ hkg, lookup_cons_ne g k w rest hkg]
        exact ih

theorem lookup_append_single_self (p : List (String × JsVal)) (f : String) (v : JsVal)
    (h : List.lookup f p = none) :
    List.lookup f (p ++ [(f, v)]) = some v := by
  induction p with
  | nil => simp [List.lookup]
  | cons a rest ih =>
    rcases a with ⟨k, w⟩
    by_cases hk : f = k
    · subst hk
      rw [lookup_cons_self] at h
      exact Option.noConfusion h
    · rw [lookup_cons_ne f k w rest hk] at h
      rw [List.cons_append, lookup_cons_ne f k w _ hk]
      exact ih h

theorem lookup_append_single_other (p : List (String × JsVal)) (f : String) (v : JsVal)
    (g : String) (hg : g ≠ f) :
    List.lookup g (p ++ [(f, v)]) = List.lookup g p := by
  induction p with
  | nil =>
    simp only [List.nil_append]
    rw [lookup_cons_ne g f v [] hg]
  | cons a rest ih =>
    rcases a with ⟨k, w⟩
    by_cases hkg : g = k
    · subst hkg
      rw [List.cons_append, lookup_cons_self, lookup_cons_self]
    · rw [List.cons_append, lookup_cons_ne g k w _ hkg, lookup_cons_ne g k w rest hkg]
      exact ih

theorem lookup_setObjField_self (p : List (String × JsVal)) (f : String) (v : JsVal) :
    List.lookup f (setObjField p f v) = some v := by
  unfold setObjField
  by_cases h : (List.lookup f p).isSome = true
  · simp only [h, if_true]
    exact lookup_replaceKey_self p f v h
  · simp only [h, if_false]
    exact lookup_append_single_self p f v (Option.not_isSome_iff_eq_none.mp h)

theorem lookup_setObjField_other (p : List (String × JsVal)) (f : String) (v : JsVal)
    (g : String) (hg : g ≠ f) :
    List.lookup g (setObjField p f v) = List.lookup g p := by
  unfold setObjField
  by_cases h : (List.lookup f p).isSome = true
  · simp only [h, if_true]
    exact lookup_replaceKey_other p f v g hg
  · simp only [h, if_false]
    exact lookup_append_single_other p f v g hg

/-- The index scan, when it answers `some m` starting from counter `k`,
has found a strict-id match at offset `m - k`, inside the list, and no
match at any earlier offset. -/
theorem photoIndexLoop_spec (xs : List JsVal) (id : Int) (k m : Nat)
    (h : photoIndexLoop xs id k = Except.ok (some m)) :
    k ≤ m ∧ m - k < xs.length ∧
    (∃ x, xs[m - k]? = some x ∧ strictEq (getFieldD x "id") (JsVal.vnum id) = true) ∧
    (∀ j x, j < m - k → xs[j]? = some x →
      strictEq (getFieldD x "id") (JsVal.vnum id) = false) := by
  induction xs generalizing k with
  | nil => simp [photoIndexLoop] at h
  | cons x rest ih =>
    rw [photoIndexLoop] at h
    cases hf : getField x "id" with
    | error e =>
      rw [hf] at h
      have h2 : (Except.error e : Except String (Option Nat)) = Except.ok (some m) := h
      exact Except.noConfusion h2
    | ok v =>
      rw [hf] at h
      have hv : v = getFieldD x "id" := getField_ok_elim hf
      have h2 : (if strictEq v (JsVal.vnum id) = true then Except.ok (some k)
          else photoIndexLoop rest id (k + 1)) = Except.ok (some m) := h
      by_cases hs : strictEq v (JsVal.vnum id) = true
      · rw [if_pos hs] at h2
        have hkm : k = m := by simpa using h2
        subst hkm
        refine ⟨Nat.le_refl _, by simp, ⟨x, by simp, by rw [← hv]; exact hs⟩, ?_⟩
        intro j y hj
        omega
      · rw [if_neg hs] at h2
        obtain ⟨hle, hlt, ⟨y, hy, hmy⟩, hmin⟩ := ih (k + 1) h2
        refine ⟨by omega, by simp; omega, ?_, ?_⟩
        · refine ⟨y, ?_, hmy⟩
          have hmk : m - k = (m - (k + 1)) + 1 := by omega
          rw [hmk]
          simpa using hy
        · intro j z hj hz
          cases j with
          | zero =>
            have hzx : z = x := by
              simp at hz
              exact hz.symm
            subst hzx
            rw [← hv]
            rwa [Bool.not_eq_true] at hs
          | succ j2 =>
            refine hmin j2 z (by omega) ?_
            simpa using hz


/-! ### Claim C3 -/

/-- Claim C3: in Update Photo Details, a replacement input that is blank
after trimming leaves the corresponding stored field (title or
description) unchanged, and a non-blank input — including one identical
to the current value — replaces the stored field with the entered text
verbatim, untrimmed, in the collection written back. -/
theorem C3_update_field_rule
    (s : S) (idInput newTitle newDesc : String) (rest : List String)
    (id : Int) (xs : List JsVal) (i : Nat) (p : List (String × JsVal))
    (h1 : s.inputs = idInput :: newTitle :: newDesc :: rest)
    (h2 : jsParseInt idInput = some id)
    (h3 : s.files PHOTOS_FILE = some (JsVal.varr xs))
    (h4 : photoIndexLoop xs id 0 = Except.ok (some i))
    (h5 : xs[i]? = some (JsVal.vobj p))
    (h6 : s.writeOk PHOTOS_FILE = true) :
    ∃ ys : List JsVal, ∃ q : List (String × JsVal),
      (updatePhotoDetailsFeature s).1.files PHOTOS_FILE = some (JsVal.varr ys) ∧
      ys[i]? = some (JsVal.vobj q) ∧
      List.lookup "title" q =
        (if jsTrim newTitle = "" then List.lookup "title" p
         else some (JsVal.vstr newTitle)) ∧
      List.lookup "description" q =
        (if jsTrim newDesc = "" then List.lookup "description" p
         else some (JsVal.vstr newDesc)) := by
  have hlen : i < xs.length := by
    have hsp := (photoIndexLoop_spec xs id 0 i h4).2.1
    simpa using hsp
  rw [updateFeature_run s idInput newTitle newDesc rest id xs i p h1 h2 h3 h4 h5]
  by_cases ht : jsTrim newTitle = "" <;> by_cases hd : jsTrim newDesc = "" <;>
    simp only [ht, hd, ne_eq, not_true_eq_false, not_false_eq_true, if_true, if_false,
      ite_true, ite_false, h6]
  · exact ⟨xs.set i (JsVal.vobj p), p, by simp,
      List.getElem?_set_eq_of_lt _ hlen, rfl, rfl⟩
  · exact ⟨xs.set i (JsVal.vobj (setObjField p "description" (JsVal.vstr newDesc))),
      setObjField p "description" (JsVal.vstr newDesc), by simp,
      List.getElem?_set_eq_of_lt _ hlen,
      lookup_setObjField_other p "description" (JsVal.vstr newDesc) "title" (by decide),
      lookup_setObjField_self p "description" (JsVal.vstr newDesc)⟩
  · exact ⟨xs.set i (JsVal.vobj (setObjField p "title" (JsVal.vstr newTitle))),
      setObjField p "title" (JsVal.vstr newTitle), by simp,
      List.getElem?_set_eq_of_lt _ hlen,
      lookup_setObjField_self p "title" (JsVal.vstr newTitle),
      lookup_setObjField_other p "title" (JsVal.vstr newTitle) "description" (by decide)⟩
  · refine ⟨xs.set i (JsVal.vobj (setObjField (setObjField p "title" (JsVal.vstr newTitle))
        "description" (JsVal.vstr newDesc))),
      setObjField (setObjField p "title" (JsVal.vstr newTitle)) "description" (JsVal.vstr newDesc),
      by simp, List.getElem?_set_eq_of_lt _ hlen, ?_, ?_⟩
    · rw [lookup_setObjField_other _ "description" (JsVal.vstr newDesc) "title" (by decide),
        lookup_setObjField_self p "title" (JsVal.vstr newTitle)]
    · rw [lookup_setObjField_self]

/-- Witness for C3: updating photo 1 of the sample catalog with title
"New Title" and a blank description. -/
theorem C3_update_field_rule_witness :
    ∃ ys : List JsVal, ∃ q : List (String × JsVal),
      (updatePhotoDetailsFeature (mkS catFiles true ["1", "New Title", "  "])).1.files
          PHOTOS_FILE = some (JsVal.varr ys) ∧
      ys[0]? = some (JsVal.vobj q) ∧
      List.lookup "title" q =
        (if jsTrim "New Title" = "" then List.lookup "title" photoOneFields
         else some (JsVal.vstr "New Title")) ∧
      List.lookup "description" q =
        (if jsTrim "  " = "" then List.lookup "description" photoOneFields
         else some (JsVal.vstr "  ")) :=
  C3_update_field_rule (mkS catFiles true ["1", "New Title", "  "]) "1" "New Title" "  " []
    1 [photoOne] 0 photoOneFields rfl rfl rfl rfl rfl rfl

/-! ### Claim C10 -/

/-- Claim C10: a successful Update Photo Details run writes back a
collection equal to the loaded one except possibly the `title` and
`description` fields of the element at the matched index: same length,
every other element unchanged, every other field of the matched object
unchanged; the matched element is the first whose `id` strictly equals
the requested integer; and no other document is touched. -/
theorem C10_update_frame_condition
    (s : S) (idInput newTitle newDesc : String) (rest : List String)
    (id : Int) (xs : List JsVal) (i : Nat) (p : List (String × JsVal))
    (h1 : s.inputs = idInput :: newTitle :: newDesc :: rest)
    (h2 : jsParseInt idInput = some id)
    (h3 : s.files PHOTOS_FILE = some (JsVal.varr xs))
    (h4 : photoIndexLoop xs id 0 = Except.ok (some i))
    (h5 : xs[i]? = some (JsVal.vobj p))
    (h6 : s.writeOk PHOTOS_FILE = true) :
    ∃ ys : List JsVal, ∃ q : List (String × JsVal),
      (updatePhotoDetailsFeature s).1.files PHOTOS_FILE = some (JsVal.varr ys) ∧
      ys.length = xs.length ∧
      (∀ j : Nat, j ≠ i → ys[j]? = xs[j]?) ∧
      ys[i]? = some (JsVal.vobj q) ∧
      (∀ f2 : String, f2 ≠ "title" → f2 ≠ "description" →
        List.lookup f2 q = List.lookup f2 p) ∧
      strictEq (getFieldD (JsVal.vobj p) "id") (JsVal.vnum id) = true ∧
      (∀ j : Nat, ∀ x : JsVal, j < i → xs[j]? = some x →
        strictEq (getFieldD x "id") (JsVal.vnum id) = false) ∧
      (∀ path : String, path ≠ PHOTOS_FILE →
        (updatePhotoDetailsFeature s).1.files path = s.files path) := by
  obtain ⟨-, hlt0, ⟨x0, hx0, hm0⟩, hmin0⟩ := photoIndexLoop_spec xs id 0 i h4
  have hlen : i < xs.length := by simpa using hlt0
  have hxp : x0 = JsVal.vobj p := by
    rw [show i - 0 = i from rfl] at hx0
    rw [h5] at hx0
    exact (Option.some_inj.mp hx0).symm
  have hidp : strictEq (getFieldD (JsVal.vobj p) "id") (JsVal.vnum id) = true := by
    rw [← hxp]
    exact hm0
  have hminp : ∀ j : Nat, ∀ x : JsVal, j < i → xs[j]? = some x →
      strictEq (getFieldD x "id") (JsVal.vnum id) = false := by
    intro j x hj hx
    exact hmin0 j x (by omega) hx
  rw [updateFeature_run s idInput newTitle newDesc rest id xs i p h1 h2 h3 h4 h5]
  by_cases ht : jsTrim newTitle = "" <;> by_cases hd : jsTrim newDesc = "" <;>
    simp only [ht, hd, ne_eq, not_true_eq_false, not_false_eq_true, if_true, if_false,
      ite_true, ite_false, h6]
  · refine ⟨xs.set i (JsVal.vobj p), p, by simp, by simp,
      fun j hj => List.getElem?_set_ne (fun he => hj he.symm),
      List.getElem?_set_eq_of_lt _ hlen, ?_, hidp, hminp, fun path hp => by simp [hp]⟩
    exact fun f2 hft hfd => rfl
  · refine ⟨xs.set i (JsVal.vobj (setObjField p "description" (JsVal.vstr newDesc))),
      setObjField p "description" (JsVal.vstr newDesc), by simp, by simp,
      fun j hj => List.getElem?_set_ne (fun he => hj he.symm),
      List.getElem?_set_eq_of_lt _ hlen, ?_, hidp, hminp, fun path hp => by simp [hp]⟩
    exact fun f2 hft hfd =>
      lookup_setObjField_other p "description" (JsVal.vstr newDesc) f2 hfd
  · refine ⟨xs.set i (JsVal.vobj (setObjField p "title" (JsVal.vstr newTitle))),
      setObjField p "title" (JsVal.vstr newTitle), by simp, by simp,
      fun j hj => List.getElem?_set_ne (fun he => hj he.symm),
      List.getElem?_set_eq_of_lt _ hlen, ?_, hidp, hminp, fun path hp => by simp [hp]⟩
    exact fun f2 hft hfd =>
      lookup_setObjField_other p "title" (JsVal.vstr newTitle) f2 hft
  · refine ⟨xs.set i (JsVal.vobj (setObjField (setObjField p "title" (JsVal.vstr newTitle))
        "description" (JsVal.vstr newDesc))),
      setObjField (setObjField p "title" (JsVal.vstr newTitle)) "description"
        (JsVal.vstr newDesc), by simp, by simp,
      fun j hj => List.getElem?_set_ne (fun he => hj he.symm),
      List.getElem?_set_eq_of_lt _ hlen, ?_, hidp, hminp, fun path hp => by simp [hp]⟩
    exact fun f2 hft hfd => by
      rw [lookup_setObjField_other _ "description" (JsVal.vstr newDesc) f2 hfd,
        lookup_setObjField_other p "title" (JsVal.vstr newTitle) f2 hft]

/-- Witness for C10 at the sample catalog. -/
theorem C10_update_frame_condition_witness :
    ∃ ys : List JsVal, ∃ q : List (String × JsVal),
      (updatePhotoDetailsFeature (mkS catFiles true ["1", "T2", "D2"])).1.files
          PHOTOS_FILE = some (JsVal.varr ys) ∧
      ys.length = [photoOne].length ∧
      (∀ j : Nat, j ≠ 0 → ys[j]? = [photoOne][j]?) ∧
      ys[0]? = some (JsVal.vobj q) ∧
      (∀ f2 : String, f2 ≠ "title" → f2 ≠ "description" →
        List.lookup f2 q = List.lookup f2 photoOneFields) ∧
      strictEq (getFieldD (JsVal.vobj photoOneFields) "id") (JsVal.vnum 1) = true ∧
      (∀ j : Nat, ∀ x : JsVal, j < 0 → [photoOne][j]? = some x →
        strictEq (getFieldD x "id") (JsVal.vnum 1) = false) ∧
      (∀ path : String, path ≠ PHOTOS_FILE →
        (updatePhotoDetailsFeature (mkS catFiles true ["1", "T2", "D2"])).1.files path =
          (mkS catFiles true ["1", "T2", "D2"]).files path) :=
  C10_update_frame_condition (mkS catFiles true ["1", "T2", "D2"]) "1" "T2" "D2" []
    1 [photoOne] 0 photoOneFields rfl rfl rfl rfl rfl rfl

/-! ### Claim C9 -/

/-- Claim C9: when the save fails during a mutating operation, a
diagnostic naming the document and the underlying cause is printed, the
persisted files are untouched, and the operation nonetheless ends by
printing its success confirmation: "Photo updated" for Update Photo
Details (general statement), and likewise "Updated!" for Tag Photo
(closed conjunct at the sample catalog with a failing write). -/
theorem C9_save_failure_still_reports_success
    (s : S) (idInput newTitle newDesc : String) (rest : List String)
    (id : Int) (xs : List JsVal) (i : Nat) (p : List (String × JsVal))
    (h1 : s.inputs = idInput :: newTitle :: newDesc :: rest)
    (h2 : jsParseInt idInput = some id)
    (h3 : s.files PHOTOS_FILE = some (JsVal.varr xs))
    (h4 : photoIndexLoop xs id 0 = Except.ok (some i))
    (h5 : xs[i]? = some (JsVal.vobj p))
    (h6 : s.writeOk PHOTOS_FILE = false) :
    (∃ doc : JsVal, ∃ pre : List Event,
      updatePhotoDetailsFeature s =
        ({ s with inputs := rest,
                  tr := s.tr ++ pre ++ [Event.writeF PHOTOS_FILE doc,
                    Event.out ("Error writing file " ++ PHOTOS_FILE ++ " - " ++
                      s.writeErrMsg PHOTOS_FILE),
                    Event.out "Photo updated"] },
         Except.ok ())) ∧
    (tagPhotoFeature (mkS catFiles false ["1", "y"])).1.tr =
      [Event.prm "What photo ID to tag? ",
       Event.prm "What tag to add (single tag)? ",
       Event.readF PHOTOS_FILE,
       Event.writeF PHOTOS_FILE (JsVal.varr [JsVal.vobj
         [("id", JsVal.vnum 1), ("filename", JsVal.vstr "a.jpg"), ("title", JsVal.vstr "A"),
          ("description", JsVal.vstr "old"),
          ("tags", JsVal.varr [JsVal.vstr "x", JsVal.vstr "y"]),
          ("albums", JsVal.varr [JsVal.vnum 10])]]),
       Event.out ("Error writing file " ++ PHOTOS_FILE ++ " - disk full"),
       Event.out "Updated!"] := by
  constructor
  · refine ⟨JsVal.varr (xs.set i (JsVal.vobj
        (if jsTrim newDesc ≠ "" then
          setObjField (if jsTrim newTitle ≠ "" then setObjField p "title" (JsVal.vstr newTitle)
            else p) "description" (JsVal.vstr newDesc)
         else (if jsTrim newTitle ≠ "" then setObjField p "title" (JsVal.vstr newTitle) else p)))),
      [Event.prm "Photo ID? ", Event.readF PHOTOS_FILE,
       Event.out "Press enter to reuse existing value.",
       Event.prm ("Enter value for title [" ++
         orEmptyStr ((List.lookup "title" p).getD JsVal.vundef) ++ "]: "),
       Event.prm ("Enter value for description [" ++
         orEmptyStr ((List.lookup "description"
           (if jsTrim newTitle ≠ "" then setObjField p "title" (JsVal.vstr newTitle)
            else p)).getD JsVal.vundef) ++ "]: ")], ?_⟩
    rw [updateFeature_run s idInput newTitle newDesc rest id xs i p h1 h2 h3 h4 h5]
    simp [h6]
  · rfl

/-- Witness for C9: the sample catalog with a failing write. -/
theorem C9_save_failure_still_reports_success_witness :
    ∃ doc : JsVal, ∃ pre : List Event,
      updatePhotoDetailsFeature (mkS catFiles false ["1", "T2", "D2"]) =
        ({ mkS catFiles false ["1", "T2", "D2"] with
             inputs := ([] : List String),
             tr := ([] : List Event) ++ pre ++ [Event.writeF PHOTOS_FILE doc,
               Event.out ("Error writing file " ++ PHOTOS_FILE ++ " - " ++
                 (mkS catFiles false ["1", "T2", "D2"]).writeErrMsg PHOTOS_FILE),
               Event.out "Photo updated"] },
         Except.ok ()) :=
  (C9_save_failure_still_reports_success (mkS catFiles false ["1", "T2", "D2"])
    "1" "T2" "D2" [] 1 [photoOne] 0 photoOneFields rfl rfl rfl rfl rfl rfl).1

/-! ### Claims C1 and C8 (Tag Photo) -/

/-- The duplicate scan succeeds exactly when some existing tag
renders, lowercased, to the needle. -/
theorem elems_varr (xs : List JsVal) : elems (JsVal.varr xs) = xs := rfl

theorem dupLoop_eq_true_iff (ts : List JsVal) (needle : String) :
    dupLoop ts needle = true ↔ ∃ t ∈ ts, jsLower (jsToString t) = needle := by
  induction ts with
  | nil => simp [dupLoop]
  | cons t rest ih =>
    by_cases hc : jsLower (jsToString t) = needle
    · simp [dupLoop, hc]
    · simp [dupLoop, hc, ih]


/-- Claim C1: in Tag Photo, when some existing tag of the matched photo
equals the requested trimmed tag under case-insensitive comparison, the
operation prints "Tag already exists, no changes made" and returns with
no write event and the file system untouched; the closed conjuncts
replay the spec's scenario — adding "Beach" and then "BEACH" to the same
photo leaves exactly one stored tag, spelled "Beach", and the second run
ends in the duplicate message with no second write. -/
theorem C1_duplicate_tag_aborts_without_save
    (s : S) (idInput tagInput : String) (rest : List String)
    (id : Int) (xs : List JsVal) (i : Nat) (p : List (String × JsVal))
    (h1 : s.inputs = idInput :: tagInput :: rest)
    (h2 : jsParseInt idInput = some id)
    (h3 : jsTrim tagInput ≠ "")
    (h4 : s.files PHOTOS_FILE = some (JsVal.varr xs))
    (h5 : photoIndexLoop xs id 0 = Except.ok (some i))
    (h6 : xs[i]? = some (JsVal.vobj p))
    (h7 : ∃ t ∈ elems (orEmptyArr ((List.lookup "tags" p).getD JsVal.vundef)),
      jsLower (jsToString t) = jsLower (jsTrim tagInput)) :
    tagPhotoFeature s =
      ({ s with inputs := rest,
                tr := s.tr ++ [Event.prm "What photo ID to tag? ",
                  Event.prm "What tag to add (single tag)? ",
                  Event.readF PHOTOS_FILE,
                  Event.out "Tag already exists, no changes made"] },
       Except.ok ()) ∧
    ((tagPhotoFeature >>= fun _ => tagPhotoFeature)
        (mkS beachFiles true ["1", "Beach", "1", "BEACH"])).1.files PHOTOS_FILE =
      some (JsVal.varr [JsVal.vobj [("id", JsVal.vnum 1),
        ("tags", JsVal.varr [JsVal.vstr "Beach"])]]) ∧
    ((tagPhotoFeature >>= fun _ => tagPhotoFeature)
        (mkS beachFiles true ["1", "Beach", "1", "BEACH"])).1.tr =
      [Event.prm "What photo ID to tag? ", Event.prm "What tag to add (single tag)? ",
       Event.readF PHOTOS_FILE,
       Event.writeF PHOTOS_FILE (JsVal.varr [JsVal.vobj [("id", JsVal.vnum 1),
         ("tags", JsVal.varr [JsVal.vstr "Beach"])]]),
       Event.out "Updated!",
       Event.prm "What photo ID to tag? ", Event.prm "What tag to add (single tag)? ",
       Event.readF PHOTOS_FILE,
       Event.out "Tag already exists, no changes made"] := by
  have hdup : dupLoop (elems (orEmptyArr ((List.lookup "tags" p).getD JsVal.vundef)))
      (jsLower (jsTrim tagInput)) = true :=
    (dupLoop_eq_true_iff _ _).mpr h7
  refine ⟨?_, rfl, rfl⟩
  simp [tagPhotoFeature, M.bind_apply, promptM, output, liftExc, readJson, jsIndex, elems_varr,
    getField, getFieldD, truthy, h1, h2, h3, h4, h5, h6, hdup, List.append_assoc]

/-- Witness for C1: adding "x" to the sample photo that already holds
tag "x". -/
theorem C1_duplicate_tag_aborts_without_save_witness :
    tagPhotoFeature (mkS catFiles true ["1", "x"]) =
      ({ mkS catFiles true ["1", "x"] with
           inputs := ([] : List String),
           tr := ([] : List Event) ++ [Event.prm "What photo ID to tag? ",
             Event.prm "What tag to add (single tag)? ",
             Event.readF PHOTOS_FILE,
             Event.out "Tag already exists, no changes made"] },
       Except.ok ()) :=
  (C1_duplicate_tag_aborts_without_save (mkS catFiles true ["1", "x"]) "1" "x" []
    1 [photoOne] 0 photoOneFields rfl rfl (by decide) rfl rfl rfl
    ⟨JsVal.vstr "x", by simp [photoOneFields, orEmptyArr, truthy, elems, List.lookup], rfl⟩).1

/-- Claim C8: a Tag Photo run with no case-insensitive duplicate appends
the trimmed tag, with its entered casing, at the end of the photo's tag
sequence; every previously present tag stays, in order, before it; the
full photo collection is persisted in a single write; and "Updated!" is
reported. -/
theorem C8_tag_append_success
    (s : S) (idInput tagInput : String) (rest : List String)
    (id : Int) (xs : List JsVal) (i : Nat) (p : List (String × JsVal)) (ts : List JsVal)
    (h1 : s.inputs = idInput :: tagInput :: rest)
    (h2 : jsParseInt idInput = some id)
    (h3 : jsTrim tagInput ≠ "")
    (h4 : s.files PHOTOS_FILE = some (JsVal.varr xs))
    (h5 : photoIndexLoop xs id 0 = Except.ok (some i))
    (h6 : xs[i]? = some (JsVal.vobj p))
    (h7 : orEmptyArr ((List.lookup "tags" p).getD JsVal.vundef) = JsVal.varr ts)
    (h8 : ∀ t ∈ ts, jsLower (jsToString t) ≠ jsLower (jsTrim tagInput))
    (h9 : s.writeOk PHOTOS_FILE = true) :
    tagPhotoFeature s =
      ({ s with inputs := rest,
                files := fun q => if q = PHOTOS_FILE then
                    some (JsVal.varr (xs.set i (JsVal.vobj (setObjField p "tags"
                      (JsVal.varr (ts ++ [JsVal.vstr (jsTrim tagInput)]))))))
                  else s.files q,
                tr := s.tr ++ [Event.prm "What photo ID to tag? ",
                  Event.prm "What tag to add (single tag)? ",
                  Event.readF PHOTOS_FILE,
                  Event.writeF PHOTOS_FILE (JsVal.varr (xs.set i (JsVal.vobj (setObjField p
                    "tags" (JsVal.varr (ts ++ [JsVal.vstr (jsTrim tagInput)])))))),
                  Event.out "Updated!"] },
       Except.ok ()) := by
  have hdup : dupLoop ts (jsLower (jsTrim tagInput)) = false := by
    rw [← Bool.not_eq_true]
    intro hc
    obtain ⟨t, hmem, hlow⟩ := (dupLoop_eq_true_iff _ _).mp hc
    exact h8 t hmem hlow
  simp [tagPhotoFeature, M.bind_apply, promptM, output, liftExc, readJson, writeJson,
    jsIndex, jsSet, jsPush, elems_varr, getField, getFieldD, setField, truthy,
    h1, h2, h3, h4, h5, h6, h7, h9, hdup, List.append_assoc]

/-- Witness for C8: adding " Sunny Day " to the tagless beach photo
stores the trimmed "Sunny Day". -/
theorem C8_tag_append_success_witness :
    tagPhotoFeature (mkS beachFiles true ["1", " Sunny Day "]) =
      ({ mkS beachFiles true ["1", " Sunny Day "] with
           inputs := ([] : List String),
           files := fun q => if q = PHOTOS_FILE then
               some (JsVal.varr ([JsVal.vobj [("id", JsVal.vnum 1),
                 ("tags", JsVal.varr [])]].set 0 (JsVal.vobj (setObjField
                   [("id", JsVal.vnum 1), ("tags", JsVal.varr [])] "tags"
                   (JsVal.varr ([] ++ [JsVal.vstr (jsTrim " Sunny Day ")]))))))
             else (mkS beachFiles true ["1", " Sunny Day "]).files q,
           tr := ([] : List Event) ++ [Event.prm "What photo ID to tag? ",
             Event.prm "What tag to add (single tag)? ",
             Event.readF PHOTOS_FILE,
             Event.writeF PHOTOS_FILE (JsVal.varr ([JsVal.vobj [("id", JsVal.vnum 1),
               ("tags", JsVal.varr [])]].set 0 (JsVal.vobj (setObjField
                 [("id", JsVal.vnum 1), ("tags", JsVal.varr [])] "tags"
                 (JsVal.varr ([] ++ [JsVal.vstr (jsTrim " Sunny Day ")])))))),
             Event.out "Updated!"] },
       Except.ok ()) :=
  C8_tag_append_success (mkS beachFiles true ["1", " Sunny Day "]) "1" " Sunny Day " []
    1 [JsVal.vobj [("id", JsVal.vnum 1), ("tags", JsVal.varr [])]] 0
    [("id", JsVal.vnum 1), ("tags", JsVal.varr [])] []
    rfl rfl (by decide) rfl rfl rfl rfl (by simp) rfl

/-! ### Claim C4 (Album Photo List) -/


theorem truthy_varr (xs : List JsVal) : truthy (JsVal.varr xs) = true := rfl

theorem truthy_vobj (fs : List (String × JsVal)) : truthy (JsVal.vobj fs) = true := rfl

theorem belongsLoop_eq_any (xs : List JsVal) (a : JsVal) :
    belongsLoop xs a = xs.any (fun x => strictEq x a) := by
  induction xs with
  | nil => rfl
  | cons x rest ih =>
    by_cases hx : strictEq x a = true
    · simp [belongsLoop, hx]
    · have hx2 : strictEq x a = false := by rwa [Bool.not_eq_true] at hx
      simp [belongsLoop, hx2, ih]

theorem intercalate_go_eq (xs : List String) (acc sep : String) :
    String.intercalate.go acc sep xs =
      (match xs with
       | [] => acc
       | _ :: _ => acc ++ sep ++ joinSep xs sep) := by
  induction xs generalizing acc with
  | nil => rw [String.intercalate.go]
  | cons a as ih =>
    rw [String.intercalate.go, ih]
    cases as with
    | nil => simp [joinSep]
    | cons b bs => simp [joinSep, String.append_assoc]

/-- The source's manual separator loop is `String.intercalate`. -/
theorem joinSep_eq_intercalate (xs : List String) (sep : String) :
    joinSep xs sep = String.intercalate sep xs := by
  cases xs with
  | nil => rfl
  | cons a as =>
    rw [String.intercalate, intercalate_go_eq]
    cases as with
    | nil => rfl
    | cons b bs => rfl

/-- One loop iteration of the album listing never throws on an
accessible photo and yields the row exactly when the photo belongs to
the album. -/
theorem albumRowStep_ok (albumId p : JsVal) (h : accessible p = true) :
    albumRowStep albumId p =
      Except.ok (if photoBelongs albumId p then some (photoRowSpec p) else none) := by
  rw [albumRowStep, getField_ok_of_accessible p "albums" h]
  by_cases hb : photoBelongs albumId p = true
  · have hbl : belongsLoop (elems (orEmptyArr (getFieldD p "albums"))) albumId = true := by
      rw [belongsLoop_eq_any]
      exact hb
    rw [getField_ok_of_accessible p "resolution" h, getField_ok_of_accessible p "tags" h,
      getField_ok_of_accessible p "filename" h] at *
    simp [hbl, hb, photoRowSpec, joinSep_eq_intercalate]
  · have hbl : belongsLoop (elems (orEmptyArr (getFieldD p "albums"))) albumId = false := by
      rw [belongsLoop_eq_any]
      rwa [Bool.not_eq_true] at hb
    simp [hbl, hb]

/-- The album listing loop prints exactly one row per belonging photo,
in storage order. -/
theorem albumRowsLoop_run (albumId : JsVal) (ps : List JsVal) (s : S)
    (h : ps.all accessible = true) :
    albumRowsLoop albumId ps s =
      ({ s with tr := s.tr ++ ((ps.filter (photoBelongs albumId)).map
          (fun p => Event.out (photoRowSpec p))) }, Except.ok ()) := by
  induction ps generalizing s with
  | nil => simp [albumRowsLoop, M.pure_apply]
  | cons p rest ih =>
    simp only [List.all_cons, Bool.and_eq_true] at h
    rw [albumRowsLoop, albumRowStep_ok albumId p h.1]
    by_cases hb : photoBelongs albumId p = true
    · simp only [hb, if_true]
      simp [M.bind_apply, output, ih _ h.2, List.filter_cons, hb, List.append_assoc]
    · have hb2 : photoBelongs albumId p = false := by rwa [Bool.not_eq_true] at hb
      simp only [hb2, if_false]
      simp [ih _ h.2, List.filter_cons, hb2]

/-- Claim C4: a successful Album Photo List run prints the header line
`filename,resolution,tags` once, then exactly one line per photo whose
`albums` sequence contains the matched album's id, in storage order
with no sorting, each line `<filename>,<resolution>,<tags>` with the
tags colon-joined without spaces or fallback text; an empty tag list
joins to the empty string, leaving an empty field after the last
comma. -/
theorem C4_album_list_format
    (s : S) (nameInput : String) (rest : List String)
    (albumsV : JsVal) (xs : List JsVal) (aFields : List (String × JsVal))
    (h1 : s.inputs = nameInput :: rest)
    (h2 : jsTrim nameInput ≠ "")
    (h3 : s.files ALBUMS_FILE = some albumsV)
    (h4 : truthy albumsV = true)
    (h5 : s.files PHOTOS_FILE = some (JsVal.varr xs))
    (h6 : albumSearchLoop (elems albumsV) (jsLower (jsTrim nameInput)) =
      Except.ok (JsVal.vobj aFields))
    (h7 : xs.all accessible = true) :
    albumPhotoListFeature s =
      ({ s with inputs := rest,
                tr := s.tr ++ [Event.prm "What is the name of the album? ",
                  Event.readF ALBUMS_FILE, Event.readF PHOTOS_FILE,
                  Event.out "filename,resolution,tags"] ++
                  ((xs.filter (photoBelongs ((List.lookup "id" aFields).getD JsVal.vundef))).map
                    (fun p => Event.out (photoRowSpec p))) },
       Except.ok ()) ∧
    String.intercalate ":" ([] : List String) = "" := by
  refine ⟨?_, rfl⟩
  simp [albumPhotoListFeature, M.bind_apply, promptM, output, liftExc, readJson,
    getField, getFieldD, truthy_varr, truthy_vobj, elems_varr, h1, h2, h3, h4, h5, h6, h7,
    albumRowsLoop_run, List.append_assoc]

/-- Witness for C4: listing album "trip" (entered lowercase) of the
sample catalog; the single photo has no resolution field and one tag. -/
theorem C4_album_list_format_witness :
    albumPhotoListFeature (mkS catFiles true ["trip"]) =
      ({ mkS catFiles true ["trip"] with
           inputs := ([] : List String),
           tr := ([] : List Event) ++ [Event.prm "What is the name of the album? ",
             Event.readF ALBUMS_FILE, Event.readF PHOTOS_FILE,
             Event.out "filename,resolution,tags"] ++
             (([photoOne].filter (photoBelongs ((List.lookup "id"
                 [("id", JsVal.vnum 10), ("name", JsVal.vstr "Trip")]).getD JsVal.vundef))).map
               (fun p => Event.out (photoRowSpec p))) },
       Except.ok ()) :=
  (C4_album_list_format (mkS catFiles true ["trip"]) "trip" []
    (JsVal.varr [albumTen]) [photoOne] [("id", JsVal.vnum 10), ("name", JsVal.vstr "Trip")]
    rfl (by decide) rfl rfl rfl rfl rfl).1
